import Mathlib

/-
Verification of the mentoservices/server backend (Rust / Rocket / MongoDB).
Shallow embedding: each handler or guard from src/ is translated into an
executable Lean function over explicit state (lists of documents standing
for MongoDB collections). Machine integers (i32/i64) are modelled as Int,
f64 money/rating values as Rat (all values reached in the claims are exact
in binary floating point, so Rat agrees with f64 on them), Rust Strings
either as Lean String or, where byte-level mutation matters, as lists of
bytes. External collaborators (the HMAC primitive of the hmac crate, the
spherical-distance computation of MongoDB) are passed in as explicit
function parameters, as the spec treats them as external interfaces.
-/

namespace Mento

/-- Decidable equality for Except results, so that concrete handler
outcomes can be checked by decide. -/
instance {ε α : Type} [DecidableEq ε] [DecidableEq α] : DecidableEq (Except ε α) :=
  fun x y =>
    match x, y with
    | Except.ok a, Except.ok b =>
      if h : a = b then Decidable.isTrue (by rw [h])
      else Decidable.isFalse (by simp [h])
    | Except.error a, Except.error b =>
      if h : a = b then Decidable.isTrue (by rw [h])
      else Decidable.isFalse (by simp [h])
    | Except.ok _, Except.error _ => Decidable.isFalse (by simp)
    | Except.error _, Except.ok _ => Decidable.isFalse (by simp)

/-- bson ObjectId, modelled as a natural number (a 12-byte identifier). -/
abbrev ObjectId := Nat

/-- A Rust String viewed as its UTF-8 byte sequence (used for the
razorpay order id, payment id, signature and secret, where the claims
talk about byte- and bit-level mutations). -/
abbrev ByteStr := List Nat

/-- HTTP status carried by utils/response.rs ApiError constructors. -/
inductive ApiStatus where
  | badRequest
  | unauthorized
  | forbidden
  | notFound
  | tooManyRequests
  | internalServerError
deriving DecidableEq, Repr

/-- utils/response.rs ApiError: a status plus a message. -/
structure ApiError where
  status : ApiStatus
  message : String
deriving DecidableEq, Repr

def ApiError.bad_request (m : String) : ApiError := ⟨ApiStatus.badRequest, m⟩

def ApiError.unauthorized (m : String) : ApiError := ⟨ApiStatus.unauthorized, m⟩

def ApiError.not_found (m : String) : ApiError := ⟨ApiStatus.notFound, m⟩

def ApiError.too_many_requests (m : String) : ApiError := ⟨ApiStatus.tooManyRequests, m⟩

def ApiError.internal_error (m : String) : ApiError := ⟨ApiStatus.internalServerError, m⟩

/-- models/user.rs KycStatus. -/
inductive KycStatus where
  | pending
  | submitted
  | approved
  | rejected
deriving DecidableEq, Repr

/-- models/user.rs FcmToken. -/
structure FcmToken where
  android : Option String
  ios : Option String
deriving DecidableEq, Repr

/-- models/user.rs User (DateTime fields as Int milliseconds). -/
structure User where
  id : Option ObjectId
  mobile : String
  email : Option String
  name : Option String
  profile_photo : Option String
  city : Option String
  pincode : Option String
  kyc_status : KycStatus
  is_active : Bool
  fcm_token : Option FcmToken
  last_login_at : Int
  created_at : Int
  updated_at : Int
deriving DecidableEq, Repr

/-- guards/auth.rs AuthGuard payload: the authenticated identity. -/
structure AuthGuard where
  user_id : ObjectId
  mobile : String
deriving DecidableEq, Repr

/-- guards/kyc.rs KycGuard payload. -/
structure KycGuard where
  auth : AuthGuard
deriving DecidableEq, Repr

/-- A Rocket request-guard outcome (rocket::request::Outcome), with the
error payload specialised to the HTTP status the guard fails with. -/
inductive Outcome (α : Type) where
  | success (value : α)
  | failure (status : ApiStatus)
  | forward
deriving DecidableEq, Repr

/-- The db.find_one result feeding the KYC guard: Except models the
mongodb Result (storage-layer failure), Option the presence of a
matching user document. -/
abbrev UserLookup := Except String (Option User)

/-- guards/kyc.rs KycGuard::from_request: on authenticated requests it
loads the user and succeeds only for kyc_status Approved or Submitted;
missing user and storage errors fail closed with Forbidden. -/
def kycGuardFromRequest (authOutcome : Outcome AuthGuard) (lookup : UserLookup) :
    Outcome KycGuard :=
  match authOutcome with
  | Outcome.success auth =>
    match lookup with
    | Except.ok (some user) =>
      if user.kyc_status = KycStatus.approved ∨ user.kyc_status = KycStatus.submitted then
        Outcome.success ⟨auth⟩
      else
        Outcome.failure ApiStatus.forbidden
    | Except.ok none => Outcome.failure ApiStatus.forbidden
    | Except.error _ => Outcome.failure ApiStatus.forbidden
  | Outcome.failure e => Outcome.failure e
  | Outcome.forward => Outcome.forward

/-! ## Identity and token issuer (services/jwt.rs)

The jsonwebtoken HMAC signing is modelled symbolically: a signed token
records the payload claims together with the secret it was signed with,
and decoding against a secret succeeds exactly when the secrets agree
(the standard symbolic model of an unforgeable MAC) and the exp claim
passes the default validation (leeway 60 seconds). -/

/-- services/jwt.rs Claims. -/
structure Claims where
  sub : String
  mobile : String
  exp : Int
  iat : Int
deriving DecidableEq, Repr

/-- A JWT produced by jsonwebtoken::encode, symbolically: the claims
plus the HMAC secret used to sign. -/
structure SignedToken where
  claims : Claims
  secret : String
deriving DecidableEq, Repr

/-- The slice of config/mod.rs Config read by the token issuer. -/
structure JwtConfig where
  jwt_secret : String
  jwt_refresh_secret : String
  jwt_expiry : Int
  jwt_refresh_expiry : Int
deriving DecidableEq, Repr

/-- jsonwebtoken decode failures reachable in this model. -/
inductive JwtError where
  | invalidSignature
  | expiredSignature
deriving DecidableEq, Repr

/-- One hex digit (lowercase), as produced by ObjectId::to_hex. -/
def hexDigit (n : Nat) : Char :=
  if n < 10 then Char.ofNat (48 + n) else Char.ofNat (87 + n)

/-- ObjectId::to_hex: the 24-character lowercase hex rendering of the
12-byte id, most significant nibble first. -/
def oidToHex (o : ObjectId) : String :=
  String.mk (((List.range 24).reverse).map (fun i => hexDigit (o / 16 ^ i % 16)))

/-- services/jwt.rs JwtService::generate_access_token (now in seconds). -/
def generateAccessToken (cfg : JwtConfig) (userId : ObjectId) (mobile : String)
    (now : Int) : SignedToken :=
  { claims := { sub := oidToHex userId, mobile := mobile,
                exp := now + cfg.jwt_expiry, iat := now },
    secret := cfg.jwt_secret }

/-- services/jwt.rs JwtService::generate_refresh_token. -/
def generateRefreshToken (cfg : JwtConfig) (userId : ObjectId) (mobile : String)
    (now : Int) : SignedToken :=
  { claims := { sub := oidToHex userId, mobile := mobile,
                exp := now + cfg.jwt_refresh_expiry, iat := now },
    secret := cfg.jwt_refresh_secret }

/-- services/jwt.rs JwtService::verify_token: picks the refresh or access
secret by the is_refresh flag and decodes with Validation::default()
(exp checked with the default 60 second leeway). -/
def verifyToken (cfg : JwtConfig) (token : SignedToken) (is_refresh : Bool)
    (now : Int) : Except JwtError Claims :=
  let secret := if is_refresh then cfg.jwt_refresh_secret else cfg.jwt_secret
  if token.secret = secret then
    if now - 60 ≤ token.claims.exp then Except.ok token.claims
    else Except.error JwtError.expiredSignature
  else Except.error JwtError.invalidSignature

/-! ## Rate limiter (routes/auth.rs rate_limit)

The rate_limits collection is a list of records; find_one and update_one
act on the first record whose key matches, insert_one appends. Times are
Int milliseconds; the two DateTime::now() reads inside one call are
modelled as the single instant now. The count defaults in the source
(get_i32 unwrap_or) only fire on malformed documents, which the typed
model excludes. -/

/-- routes/auth.rs constants. -/
def OTP_WINDOW_MS : Int := 10 * 60 * 1000

def OTP_LIMIT : Int := 3

def REFRESH_LIMIT : Int := 10

def REFRESH_WINDOW_MS : Int := 60 * 1000

/-- A document of the rate_limits collection. -/
structure RateRecord where
  key : String
  count : Int
  expires_at : Int
deriving DecidableEq, Repr

/-- find_one on rate_limits by key. -/
def findRate (store : List RateRecord) (key : String) : Option RateRecord :=
  store.find? (fun r => r.key == key)

/-- update_one on rate_limits: $set count and expires_at on the first
record with the given key. -/
def resetRate (store : List RateRecord) (key : String) (count expires : Int) :
    List RateRecord :=
  match store with
  | [] => []
  | r :: rest =>
    if r.key == key then { r with count := count, expires_at := expires } :: rest
    else r :: resetRate rest key count expires

/-- update_one on rate_limits: $inc count by 1 on the first record with
the given key. -/
def incRate (store : List RateRecord) (key : String) : List RateRecord :=
  match store with
  | [] => []
  | r :: rest =>
    if r.key == key then { r with count := r.count + 1 } :: rest
    else r :: incRate rest key

/-- routes/auth.rs rate_limit: fixed-window counter per key. Returns the
request decision together with the updated rate_limits collection. -/
def rateLimit (store : List RateRecord) (key : String) (limit : Int)
    (window_ms : Int) (now : Int) : Except ApiError Unit × List RateRecord :=
  let window_expires := now + window_ms
  match findRate store key with
  | none =>
    (Except.ok (), store ++ [{ key := key, count := 1, expires_at := window_expires }])
  | some d =>
    if d.expires_at < now then
      (Except.ok (), resetRate store key 1 window_expires)
    else if limit ≤ d.count then
      (Except.error (ApiError.too_many_requests "Too many requests. Please try later."), store)
    else
      (Except.ok (), incRate store key)

/-- Hex value of one character, as accepted by ObjectId::parse_str. -/
def hexVal (c : Char) : Option Nat :=
  if 48 ≤ c.toNat ∧ c.toNat ≤ 57 then some (c.toNat - 48)
  else if 97 ≤ c.toNat ∧ c.toNat ≤ 102 then some (c.toNat - 87)
  else if 65 ≤ c.toNat ∧ c.toNat ≤ 70 then some (c.toNat - 55)
  else none

/-- ObjectId::parse_str: accepts exactly 24 hex characters. -/
def parseObjectIdStr (s : String) : Option ObjectId :=
  if s.length = 24 then
    s.data.foldl (fun acc c => acc.bind (fun n => (hexVal c).map (fun v => n * 16 + v)))
      (some 0)
  else none

/-- routes/auth.rs refresh_token: rate-limits on the constant key
"refresh_token" (10 requests per 60 seconds, shared by all callers),
then re-validates the refresh token and issues a new access token.
nowMs feeds the millisecond clock of the rate limiter, nowSec the
second clock of the token issuer. -/
def refreshTokenRoute (cfg : JwtConfig) (store : List RateRecord)
    (refresh_token : SignedToken) (nowMs nowSec : Int) :
    Except ApiError SignedToken × List RateRecord :=
  let rl := rateLimit store "refresh_token" REFRESH_LIMIT REFRESH_WINDOW_MS nowMs
  match rl.1 with
  | Except.error e => (Except.error e, rl.2)
  | Except.ok _ =>
    match verifyToken cfg refresh_token true nowSec with
    | Except.error _ =>
      (Except.error (ApiError.unauthorized "Invalid refresh token"), rl.2)
    | Except.ok claims =>
      match parseObjectIdStr claims.sub with
      | none => (Except.error (ApiError.unauthorized "Invalid user id in token"), rl.2)
      | some user_id =>
        (Except.ok (generateAccessToken cfg user_id claims.mobile nowSec), rl.2)

/-! ## Subscriptions (models/subscription.rs, routes/worker.rs)

The subscriptions collection is a list of documents. The Razorpay HMAC
primitive of routes/worker.rs (Hmac of Sha256 plus hex::encode) is an
external crate and is passed in as an explicit function from secret and
message bytes to signature bytes; the handler only ever compares its
output for equality, so every theorem below holds for all such
functions. f64 prices appear as Rat. -/

/-- models/subscription.rs SubscriptionType. -/
inductive SubscriptionType where
  | worker
  | jobSeeker
deriving DecidableEq, Repr

/-- models/subscription.rs SubscriptionStatus. -/
inductive SubscriptionStatus where
  | active
  | expired
  | cancelled
deriving DecidableEq, Repr

/-- models/worker.rs WorkerSubscriptionPlan. -/
inductive WorkerSubscriptionPlan where
  | nonePlan
  | silver
  | gold
deriving DecidableEq, Repr

/-- models/subscription.rs Subscription. Note the document stores no
gateway order id: only the payment id is stamped at verification. -/
structure Subscription where
  id : Option ObjectId
  user_id : ObjectId
  subscription_type : SubscriptionType
  plan_name : String
  price : Rat
  status : SubscriptionStatus
  starts_at : Int
  expires_at : Int
  auto_renew : Bool
  payment_id : Option ByteStr
  created_at : Int
  updated_at : Int
deriving DecidableEq, Repr

/-- The HMAC-SHA256-then-hex primitive used by verify_subscription_payment
(first argument the secret, second the message). -/
abbrev HmacHexFn := ByteStr → ByteStr → ByteStr

/-- routes/worker.rs VerifySubscriptionPaymentDto. -/
structure VerifySubscriptionPaymentDto where
  subscription_id : String
  razorpay_order_id : ByteStr
  razorpay_payment_id : ByteStr
  razorpay_signature : ByteStr
deriving DecidableEq, Repr

/-- The signed payload: orderId ++ "|" ++ paymentId (0x7c is the byte of
the vertical bar). -/
def paymentPayload (orderId paymentId : ByteStr) : ByteStr :=
  orderId ++ [0x7c] ++ paymentId

/-- The expected signature recomputed by verify_subscription_payment. -/
def expectedSignature (hmacHex : HmacHexFn) (secret : ByteStr)
    (dto : VerifySubscriptionPaymentDto) : ByteStr :=
  hmacHex secret (paymentPayload dto.razorpay_order_id dto.razorpay_payment_id)

/-- update_one on subscriptions with filter { _id, user_id } and
$set { status: "active", payment_id, updated_at }: updates the first
matching document; none when matched_count is 0. -/
def setSubActive (db : List Subscription) (subId userId : ObjectId)
    (paymentId : ByteStr) (now : Int) : Option (List Subscription) :=
  match db with
  | [] => none
  | s :: rest =>
    if s.id == some subId && s.user_id == userId then
      some ({ s with status := SubscriptionStatus.active,
                     payment_id := some paymentId,
                     updated_at := now } :: rest)
    else
      (setSubActive rest subId userId paymentId now).map (fun db2 => s :: db2)

/-- routes/worker.rs verify_subscription_payment. secretOpt is the
RAZORPAY_KEY_SECRET environment read (None models a missing variable).
Returns the handler result (the subscription echoed on success) and the
subscriptions collection after the call. -/
def verifySubscriptionPayment (hmacHex : HmacHexFn) (secretOpt : Option ByteStr)
    (authUserId : ObjectId) (dto : VerifySubscriptionPaymentDto)
    (db : List Subscription) (now : Int) :
    Except ApiError Subscription × List Subscription :=
  match secretOpt with
  | none => (Except.error (ApiError.internal_error "Missing Razorpay secret"), db)
  | some secret =>
    if expectedSignature hmacHex secret dto ≠ dto.razorpay_signature then
      (Except.error (ApiError.bad_request "Invalid payment signature"), db)
    else
      match parseObjectIdStr dto.subscription_id with
      | none => (Except.error (ApiError.bad_request "Invalid subscription ID"), db)
      | some sub_id =>
        match setSubActive db sub_id authUserId dto.razorpay_payment_id now with
        | none => (Except.error (ApiError.not_found "Subscription not found"), db)
        | some db2 =>
          match db2.find? (fun s => s.id == some sub_id) with
          | none => (Except.error (ApiError.not_found "Subscription not found"), db2)
          | some sub => (Except.ok sub, db2)

/-- The outcome of create_subscription: the handler result (subscription
id and gateway order on success), the subscriptions collection after the
call, and whether a Razorpay order was requested. -/
structure CreateSubOutcome where
  result : Except ApiError (ObjectId × String)
  db : List Subscription
  orderRequested : Bool
deriving DecidableEq, Repr

/-- routes/worker.rs create_subscription: resolves the plan, rejects if
the user already has an active subscription, then requests a gateway
order (orderResult models the RazorpayService::create_order reply) and
inserts a subscription row with status Cancelled pending payment. -/
def createSubscription (db : List Subscription) (authUserId : ObjectId)
    (plan_name : String) (orderResult : Except String String) (newId : ObjectId)
    (now : Int) : CreateSubOutcome :=
  match (match plan_name.toLower with
         | "silver" => some ((1 : Rat), WorkerSubscriptionPlan.silver)
         | "gold" => some ((2 : Rat), WorkerSubscriptionPlan.gold)
         | _ => none) with
  | none =>
    { result := Except.error (ApiError.bad_request "Invalid plan. Choose silver or gold"),
      db := db, orderRequested := false }
  | some (price, _) =>
    match db.find? (fun s => s.user_id == authUserId &&
                             s.status == SubscriptionStatus.active) with
    | some _ =>
      { result := Except.error (ApiError.bad_request "You already have an active subscription"),
        db := db, orderRequested := false }
    | none =>
      match orderResult with
      | Except.error e =>
        { result := Except.error (ApiError.internal_error
            ("Failed to create payment order: " ++ e)),
          db := db, orderRequested := true }
      | Except.ok order =>
        let subscription : Subscription :=
          { id := some newId, user_id := authUserId,
            subscription_type := SubscriptionType.worker,
            plan_name := plan_name, price := price,
            status := SubscriptionStatus.cancelled,
            starts_at := now,
            expires_at := now + 365 * 24 * 60 * 60 * 1000,
            auto_renew := false, payment_id := none,
            created_at := now, updated_at := now }
        { result := Except.ok (newId, order),
          db := db ++ [subscription], orderRequested := true }

/-! ## Worker profiles and geo search (models/worker.rs, routes/worker.rs)

Coordinates, distances and ratings are Rat. MongoDB computes the
spherical distance inside $geoNear; that computation is external to the
repository and is passed in as a distance function on points. $geoNear
returns the documents nearest first with the computed distance attached
and drops those beyond maxDistance; ties in distance keep the collection
(insertion) order, which the stable insertion sort below realises. The
$sort stage compares the distance ascending, then the stored
subscription_plan value (a BSON string, compared lexicographically)
descending, then the rating descending. -/

/-- models/worker.rs GeoLocation: coordinates as (longitude, latitude). -/
structure GeoLocation where
  geo_type : String
  coordinates : Rat × Rat
deriving DecidableEq, Repr

/-- models/worker.rs WorkerProfile. -/
structure WorkerProfile where
  id : Option ObjectId
  user_id : ObjectId
  categories : List String
  subcategories : List String
  experience_years : Option Int
  description : Option String
  hourly_rate : Option Rat
  license_number : Option String
  service_areas : List String
  subscription_plan : WorkerSubscriptionPlan
  subscription_expires_at : Option Int
  is_verified : Bool
  is_available : Bool
  rating : Rat
  total_reviews : Int
  total_jobs_completed : Int
  created_at : Int
  updated_at : Int
  location : GeoLocation
deriving DecidableEq, Repr

/-- models/worker.rs NearbyWorkerQuery. -/
structure NearbyWorkerQuery where
  latitude : Rat
  longitude : Rat
  category : Option String
  subcategory : Option String
  page : Option Int
  limit : Option Int
deriving DecidableEq, Repr

/-- Stable insertion into a list ordered by the strict comparison lt:
the element goes before the first entry it strictly precedes, after all
equal entries. -/
def insertSorted {α : Type} (lt : α → α → Bool) (a : α) : List α → List α
  | [] => [a]
  | b :: bs => if lt b a then b :: insertSorted lt a bs else a :: b :: bs

/-- Stable sort by the strict comparison lt. -/
def sortByLt {α : Type} (lt : α → α → Bool) : List α → List α
  | [] => []
  | a :: as => insertSorted lt a (sortByLt lt as)

/-- The serialized form of WorkerSubscriptionPlan (serde lowercase), the
value BSON actually compares in the $sort stage. -/
def planBson : WorkerSubscriptionPlan → String
  | WorkerSubscriptionPlan.nonePlan => "none"
  | WorkerSubscriptionPlan.silver => "silver"
  | WorkerSubscriptionPlan.gold => "gold"

/-- The $match stage of find_nearby_workers: is_verified, is_available
and the optional category/subcategory equality (equality against an
array field means membership in BSON). -/
def nearbyMatch (q : NearbyWorkerQuery) (w : WorkerProfile) : Bool :=
  w.is_verified && w.is_available &&
  (match q.category with
   | some c => w.categories.contains c
   | none => true) &&
  (match q.subcategory with
   | some c => w.subcategories.contains c
   | none => true)

/-- The $geoNear stage: attach the spherical distance to the query point
to every document, keep those within maxDistance 10000 meters, nearest
first. -/
def geoNearStage (dist : Rat × Rat → Rat × Rat → Rat) (near : Rat × Rat)
    (ws : List WorkerProfile) : List (WorkerProfile × Rat) :=
  sortByLt (fun a b => a.2 < b.2)
    ((ws.map (fun w => (w, dist w.location.coordinates near))).filter
      (fun p => p.2 ≤ 10000))

/-- The strict comparison of the final $sort stage of
find_nearby_workers: distance 1, subscription_plan -1, rating -1.  The
plan is compared as its stored BSON string. -/
def nearbySortLt (a b : WorkerProfile × Rat) : Bool :=
  a.2 < b.2 ||
  (a.2 == b.2 && (planBson b.1.subscription_plan < planBson a.1.subscription_plan ||
    (planBson b.1.subscription_plan == planBson a.1.subscription_plan &&
      b.1.rating < a.1.rating)))

/-- routes/worker.rs find_nearby_workers: the aggregation pipeline
$geoNear, $match, $skip, $limit, $sort, in exactly that order, on the
worker_profiles collection, plus the separate count pipeline without
skip and limit. Returns the page and the reported total. -/
def findNearbyWorkers (dist : Rat × Rat → Rat × Rat → Rat)
    (ws : List WorkerProfile) (q : NearbyWorkerQuery) :
    List (WorkerProfile × Rat) × Int :=
  let page := max (q.page.getD 1) 1
  let limit := min (q.limit.getD 20) 50
  let skip := (page - 1) * limit
  let afterGeo := geoNearStage dist (q.longitude, q.latitude) ws
  let afterMatch := afterGeo.filter (fun p => nearbyMatch q p.1)
  let afterSkip := afterMatch.drop skip.toNat
  let afterLimit := afterSkip.take limit.toNat
  let sorted := sortByLt nearbySortLt afterLimit
  (sorted, (afterMatch.length : Int))

/-- The ranking tier of a plan as the spec reads it (gold above silver
above none), used only by the spec-side pipeline below. -/
def planTier : WorkerSubscriptionPlan → Nat
  | WorkerSubscriptionPlan.nonePlan => 0
  | WorkerSubscriptionPlan.silver => 1
  | WorkerSubscriptionPlan.gold => 2

/-- The ordering the spec prescribes: distance ascending, subscription
tier descending, rating descending. -/
def specNearbySortLt (a b : WorkerProfile × Rat) : Bool :=
  a.2 < b.2 ||
  (a.2 == b.2 && (planTier b.1.subscription_plan < planTier a.1.subscription_plan ||
    (planTier b.1.subscription_plan == planTier a.1.subscription_plan &&
      b.1.rating < a.1.rating)))

/-- The nearby query as the spec words it (for comparison with the
implementation): filter the eligible set, keep distance within the cap,
sort the whole set by (distance, tier descending, rating descending),
and only then paginate with skip and limit. -/
def findNearbyWorkersSpec (dist : Rat × Rat → Rat × Rat → Rat)
    (ws : List WorkerProfile) (q : NearbyWorkerQuery) :
    List (WorkerProfile × Rat) :=
  let page := max (q.page.getD 1) 1
  let limit := min (q.limit.getD 20) 50
  let skip := (page - 1) * limit
  let eligible :=
    (ws.map (fun w => (w, dist w.location.coordinates (q.longitude, q.latitude)))).filter
      (fun p => nearbyMatch q p.1 && p.2 ≤ 10000)
  let sorted := sortByLt specNearbySortLt eligible
  (sorted.drop skip.toNat).take limit.toNat

/-! ## Reviews and rating aggregation (models/review.rs, routes/review.rs)

State is the pair of the reviews and worker_profiles collections. The
f64 average is modelled in Rat; every value reached in the claims
(4, 9/2, 0) is exactly representable in f64, where the Rust division
agrees with the rational one. -/

/-- models/review.rs Review. -/
structure Review where
  id : Option ObjectId
  worker_id : ObjectId
  user_id : ObjectId
  rating : Int
  comment : Option String
  helpful_count : Int
  created_at : Int
  updated_at : Int
deriving DecidableEq, Repr

/-- models/review.rs CreateReviewDto. -/
structure CreateReviewDto where
  worker_id : String
  rating : Int
  comment : Option String
deriving DecidableEq, Repr

/-- The reviews and worker_profiles collections together. -/
structure ReviewState where
  reviews : List Review
  workers : List WorkerProfile
deriving DecidableEq, Repr

/-- All reviews of one worker (the find with filter { worker_id }). -/
def reviewsOf (reviews : List Review) (wid : ObjectId) : List Review :=
  reviews.filter (fun r => r.worker_id == wid)

/-- Sum of the ratings of the reviews of one worker. -/
def ratingsSum (reviews : List Review) (wid : ObjectId) : Int :=
  ((reviewsOf reviews wid).map (fun r => r.rating)).sum

/-- Number of reviews of one worker. -/
def reviewCount (reviews : List Review) (wid : ObjectId) : Nat :=
  (reviewsOf reviews wid).length

/-- update_one on worker_profiles with filter { _id } and
$set { rating, total_reviews, updated_at }: rewrites the first matching
profile. -/
def updateWorkerRating (wid : ObjectId) (rating : Rat) (total : Int) (now : Int) :
    List WorkerProfile → List WorkerProfile
  | [] => []
  | w :: ws =>
    if w.id == some wid then
      { w with rating := rating, total_reviews := total, updated_at := now } :: ws
    else
      w :: updateWorkerRating wid rating total now ws

/-- routes/review.rs create_review: validates the rating, requires the
worker to exist and the (worker, user) pair to be unreviewed, inserts
the review, then recomputes the average over all reviews of the worker
and persists it. Returns the handler result (the new review id) and the
updated state. -/
def createReview (st : ReviewState) (authUserId : ObjectId)
    (dto : CreateReviewDto) (newId : ObjectId) (now : Int) :
    Except ApiError ObjectId × ReviewState :=
  if dto.rating < 1 ∨ 5 < dto.rating then
    (Except.error (ApiError.bad_request "Rating must be between 1 and 5"), st)
  else
    match parseObjectIdStr dto.worker_id with
    | none => (Except.error (ApiError.bad_request "Invalid worker ID"), st)
    | some wid =>
      match st.workers.find? (fun w => w.id == some wid) with
      | none => (Except.error (ApiError.not_found "Worker not found"), st)
      | some _ =>
        match st.reviews.find? (fun r => r.worker_id == wid &&
                                         r.user_id == authUserId) with
        | some _ =>
          (Except.error (ApiError.bad_request "You have already reviewed this worker"), st)
        | none =>
          let review : Review :=
            { id := some newId, worker_id := wid, user_id := authUserId,
              rating := dto.rating, comment := dto.comment,
              helpful_count := 0, created_at := now, updated_at := now }
          let reviews2 := st.reviews ++ [review]
          let total := reviewCount reviews2 wid
          let avg := (ratingsSum reviews2 wid : Rat) / (total : Rat)
          (Except.ok newId,
           { reviews := reviews2,
             workers := updateWorkerRating wid avg (total : Int) now st.workers })

/-- routes/review.rs delete_review: requires the review to exist and be
owned by the caller, deletes it, then recomputes the average over the
remaining reviews of the worker (0.0 when none remain) and persists it. -/
def deleteReview (st : ReviewState) (authUserId : ObjectId)
    (review_id : String) (now : Int) : Except ApiError Unit × ReviewState :=
  match parseObjectIdStr review_id with
  | none => (Except.error (ApiError.bad_request "Invalid review ID"), st)
  | some rid =>
    match st.reviews.find? (fun r => r.id == some rid) with
    | none => (Except.error (ApiError.not_found "Review not found"), st)
    | some review =>
      if review.user_id ≠ authUserId then
        (Except.error (ApiError.unauthorized "Not authorized to delete this review"), st)
      else
        let reviews2 := st.reviews.eraseP (fun r => r.id == some rid)
        let total := reviewCount reviews2 review.worker_id
        let avg := if 0 < total then
            (ratingsSum reviews2 review.worker_id : Rat) / (total : Rat)
          else (0 : Rat)
        (Except.ok (),
         { reviews := reviews2,
           workers := updateWorkerRating review.worker_id avg (total : Int) now
             st.workers })

/-! ## Byte-level signature mutation (for the single-bit-flip property) -/

/-- Flip bit k of byte i of a byte string. -/
def flipBitAt (bs : ByteStr) (i k : Nat) : ByteStr :=
  bs.set i (bs.getD i 0 ^^^ 2 ^ k)

/-! ## Concrete fixtures for witnesses and counterexamples -/

/-- A concrete authenticated identity. -/
def sampleAuth : AuthGuard := { user_id := 1, mobile := "9876543210" }

/-- A concrete user document with the given KYC status. -/
def sampleUser (s : KycStatus) : User :=
  { id := some 1, mobile := "9876543210", email := none, name := none,
    profile_photo := none, city := none, pincode := none, kyc_status := s,
    is_active := true, fcm_token := none, last_login_at := 0, created_at := 0,
    updated_at := 0 }

/-- A concrete JWT configuration with distinct secrets. -/
def sampleJwtConfig : JwtConfig :=
  { jwt_secret := "access-secret", jwt_refresh_secret := "refresh-secret",
    jwt_expiry := 900, jwt_refresh_expiry := 604800 }

/-- A concrete stored subscription: id 1, owner 7, type JobSeeker, not
active (the pending-payment Cancelled marker). -/
def sampleSubscription : Subscription :=
  { id := some 1, user_id := 7, subscription_type := SubscriptionType.jobSeeker,
    plan_name := "job_seeker_premium", price := 1,
    status := SubscriptionStatus.cancelled, starts_at := 0, expires_at := 10000000,
    auto_renew := false, payment_id := none, created_at := 0, updated_at := 0 }

/-- An active Worker-type subscription owned by user 7. -/
def activeWorkerSub : Subscription :=
  { sampleSubscription with id := some 2,
                            subscription_type := SubscriptionType.worker,
                            plan_name := "gold",
                            status := SubscriptionStatus.active }

/-- The verify dto of the C2 counterexample: names subscription 1, with
the signature that the constant-output HMAC oracle expects. -/
def c2Dto : VerifySubscriptionPaymentDto :=
  { subscription_id := "000000000000000000000001", razorpay_order_id := [10],
    razorpay_payment_id := [20], razorpay_signature := [] }

/-- A concrete verified, available worker profile with the given id. -/
def sampleWorker (wid : ObjectId) : WorkerProfile :=
  { id := some wid, user_id := 100, categories := ["plumbing"],
    subcategories := ["repair"], experience_years := none, description := none,
    hourly_rate := none, license_number := none, service_areas := [],
    subscription_plan := WorkerSubscriptionPlan.silver,
    subscription_expires_at := none, is_verified := true, is_available := true,
    rating := 0, total_reviews := 0, total_jobs_completed := 0, created_at := 0,
    updated_at := 0, location := { geo_type := "Point", coordinates := (0, 0) } }

/-- Low-rated worker stored first in the collection (geo fixture). -/
def nbWorkerLow : WorkerProfile := { sampleWorker 11 with user_id := 1, rating := 1 }

/-- High-rated worker stored second, at the same location (geo fixture). -/
def nbWorkerHigh : WorkerProfile := { sampleWorker 12 with user_id := 2, rating := 5 }

/-- Nearby query at the origin with page size 1. -/
def nbQuery : NearbyWorkerQuery :=
  { latitude := 0, longitude := 0, category := none, subcategory := none,
    page := some 1, limit := some 1 }

/-- The hex id of the worker of the rating scenario (ObjectId 5). -/
def reviewWorkerHex : String := "000000000000000000000005"

/-- Rating scenario, step 0: one worker, no reviews. -/
def reviewState0 : ReviewState := { reviews := [], workers := [sampleWorker 5] }

/-- Step 1: user 101 rates 5 (review id 1). -/
def reviewState1 : ReviewState :=
  (createReview reviewState0 101 ⟨reviewWorkerHex, 5, none⟩ 1 0).2

/-- Step 2: user 102 rates 3 (review id 2). -/
def reviewState2 : ReviewState :=
  (createReview reviewState1 102 ⟨reviewWorkerHex, 3, none⟩ 2 0).2

/-- Step 3: user 103 rates 4 (review id 3). -/
def reviewState3 : ReviewState :=
  (createReview reviewState2 103 ⟨reviewWorkerHex, 4, none⟩ 3 0).2

/-- Step 4: user 102 deletes the rating-3 review. -/
def reviewState4 : ReviewState :=
  (deleteReview reviewState3 102 "000000000000000000000002" 0).2

/-- Step 5: user 101 deletes the rating-5 review. -/
def reviewState5 : ReviewState :=
  (deleteReview reviewState4 101 "000000000000000000000001" 0).2

/-- Step 6: user 103 deletes the last review. -/
def reviewState6 : ReviewState :=
  (deleteReview reviewState5 103 "000000000000000000000003" 0).2

/-- The persisted (rating, totalReviews) pair of the worker with the
given id, as stored in the worker_profiles collection. -/
def storedRating (ws : List WorkerProfile) (wid : ObjectId) : Option (Rat × Int) :=
  (ws.find? (fun w => w.id == some wid)).map (fun w => (w.rating, w.total_reviews))

/-! ## Helper lemmas -/

/-- Flipping one bit of a byte changes the byte string. -/
theorem flipBitAt_ne (bs : ByteStr) (i k : Nat) (hi : i < bs.length) :
    flipBitAt bs i k ≠ bs := by
  intro h
  have hv : (bs.set i (bs.getD i 0 ^^^ 2 ^ k)).getD i 0 = bs.getD i 0 := by
    rw [show bs.set i (bs.getD i 0 ^^^ 2 ^ k) = bs from h]
  rw [List.getD_eq_getElem?_getD, List.getElem?_set_self, List.getD_eq_getElem?_getD] at hv
  · have hx : bs.getD i 0 ^^^ 2 ^ k = bs.getD i 0 := by
      have hlt : i < bs.length := hi
      rw [List.getElem?_eq_getElem hlt] at hv
      simpa [List.getD_eq_getElem?_getD, List.getElem?_eq_getElem hlt] using hv
    have hb := congrArg (fun n => Nat.testBit n k) hx
    simp [Nat.testBit_xor, Nat.testBit_two_pow_self] at hb
  · exact hi

/-- The Bool form of a failed { _id, user_id } filter test. -/
theorem subFilter_false {s : Subscription} {subId userId : ObjectId}
    (h : ¬(s.id = some subId ∧ s.user_id = userId)) :
    (s.id == some subId && s.user_id == userId) = false := by
  by_cases h1 : s.id = some subId
  · by_cases h2 : s.user_id = userId
    · exact absurd ⟨h1, h2⟩ h
    · simp [h1, h2]
  · simp [h1]

/-- setSubActive reports matched_count 0 exactly when no document
matches the filter { _id, user_id }. -/
theorem setSubActive_eq_none_iff (db : List Subscription) (subId userId : ObjectId)
    (pid : ByteStr) (now : Int) :
    setSubActive db subId userId pid now = none ↔
      ∀ s ∈ db, ¬(s.id = some subId ∧ s.user_id = userId) := by
  induction db with
  | nil => simp [setSubActive]
  | cons s rest ih =>
    by_cases h : s.id = some subId ∧ s.user_id = userId
    · simp [setSubActive, h.1, h.2, h]
    · rw [setSubActive, if_neg (by simp [subFilter_false h]), Option.map_eq_none', ih]
      constructor
      · intro hall t htmem
        rcases List.mem_cons.mp htmem with rfl | ht2
        · exact h
        · exact hall t ht2
      · intro hall t htmem
        exact hall t (List.mem_cons_of_mem _ htmem)

/-- A successful setSubActive leaves a document with the target id in
the updated collection. -/
theorem setSubActive_some_exists {db db2 : List Subscription}
    {subId userId : ObjectId} {pid : ByteStr} {now : Int}
    (h : setSubActive db subId userId pid now = some db2) :
    ∃ s ∈ db2, s.id = some subId := by
  induction db generalizing db2 with
  | nil => simp [setSubActive] at h
  | cons s rest ih =>
    by_cases hc : (s.id == some subId && s.user_id == userId) = true
    · rw [setSubActive, if_pos hc] at h
      have hid : s.id = some subId := by
        have := (Bool.and_eq_true _ _).mp hc
        exact beq_iff_eq.mp this.1
      refine ⟨{ s with status := SubscriptionStatus.active, payment_id := some pid, updated_at := now }, ?_, hid⟩
      rw [← Option.some_inj.mp h]
      exact List.mem_cons_self _ _
    · rw [setSubActive, if_neg hc] at h
      rcases Option.map_eq_some'.mp h with ⟨db3, hdb3, hcons⟩
      rcases ih hdb3 with ⟨t, ht, htid⟩
      exact ⟨t, by rw [← hcons]; exact List.mem_cons_of_mem _ ht, htid⟩

/-- setSubActive on a decomposed collection: documents before the first
match are kept, the first match is set active and stamped. -/
theorem setSubActive_first_match (pre post : List Subscription) (s : Subscription)
    (subId userId : ObjectId) (pid : ByteStr) (now : Int)
    (hpre : ∀ t ∈ pre, ¬(t.id = some subId ∧ t.user_id = userId))
    (hsid : s.id = some subId) (hsu : s.user_id = userId) :
    setSubActive (pre ++ s :: post) subId userId pid now =
      some (pre ++ { s with status := SubscriptionStatus.active, payment_id := some pid, updated_at := now } :: post) := by
  induction pre with
  | nil => simp [setSubActive, hsid, hsu]
  | cons t rest ih =>
    have hb := subFilter_false (hpre t (List.mem_cons_self _ _))
    simp only [List.cons_append, setSubActive, hb, Bool.false_eq_true, if_false,
      List.append_eq]
    rw [ih (fun u hu => hpre u (List.mem_cons_of_mem _ hu))]
    rfl

/-- find_one by id commutes with the rating update of a worker profile
(the update does not touch the id). -/
theorem find?_updateWorkerRating (wid : ObjectId) (avg : Rat) (total now : Int)
    (ws : List WorkerProfile) :
    (updateWorkerRating wid avg total now ws).find? (fun w => w.id == some wid) =
      (ws.find? (fun w => w.id == some wid)).map
        (fun w => { w with rating := avg, total_reviews := total, updated_at := now }) := by
  induction ws with
  | nil => simp [updateWorkerRating]
  | cons w rest ih =>
    by_cases h : (w.id == some wid) = true
    · simp [updateWorkerRating, h, List.find?_cons_of_pos]
    · have h2 : (w.id == some wid) = false := by simpa using h
      simp [updateWorkerRating, h2, List.find?_cons_of_neg, ih]

/-- find_one on rate_limits by key commutes with resetRate. -/
theorem findRate_resetRate (store : List RateRecord) (key : String)
    (c e : Int) (d : RateRecord) (h : findRate store key = some d) :
    findRate (resetRate store key c e) key = some { d with count := c, expires_at := e } := by
  induction store with
  | nil => simp [findRate] at h
  | cons r rest ih =>
    by_cases hk : (r.key == key) = true
    · rw [findRate, List.find?_cons, hk] at h
      obtain rfl := Option.some_inj.mp h
      simp [resetRate, hk, findRate, List.find?_cons]
    · have hk2 : (r.key == key) = false := by simpa using hk
      rw [findRate, List.find?_cons, hk2] at h
      simp only [resetRate, hk2, Bool.false_eq_true, if_false, findRate, List.find?_cons]
      exact ih h

/-- find_one on rate_limits by key commutes with incRate. -/
theorem findRate_incRate (store : List RateRecord) (key : String)
    (d : RateRecord) (h : findRate store key = some d) :
    findRate (incRate store key) key = some { d with count := d.count + 1 } := by
  induction store with
  | nil => simp [findRate] at h
  | cons r rest ih =>
    by_cases hk : (r.key == key) = true
    · rw [findRate, List.find?_cons, hk] at h
      obtain rfl := Option.some_inj.mp h
      simp [incRate, hk, findRate, List.find?_cons]
    · have hk2 : (r.key == key) = false := by simpa using hk
      rw [findRate, List.find?_cons, hk2] at h
      simp only [incRate, hk2, Bool.false_eq_true, if_false, findRate, List.find?_cons]
      exact ih h

/-- find_one on rate_limits finds a fresh insert when the key was
absent. -/
theorem findRate_append (store : List RateRecord) (key : String) (x : RateRecord)
    (h : findRate store key = none) (hx : (x.key == key) = true) :
    findRate (store ++ [x]) key = some x := by
  induction store with
  | nil => simp [findRate, List.find?_cons, hx]
  | cons r rest ih =>
    have hk2 : (r.key == key) = false := by
      by_contra hc
      rw [findRate, List.find?_cons, (by simpa using hc : (r.key == key) = true)] at h
      exact Option.noConfusion h
    rw [findRate, List.find?_cons, hk2] at h
    rw [List.cons_append, findRate, List.find?_cons, hk2]
    exact ih h

/-- Mapping a constant over a present option yields that constant. -/
theorem map_const_of_isSome {α β : Type} {o : Option α} (c : β)
    (h : o.isSome = true) : o.map (fun _ => c) = some c := by
  rcases o with _ | a
  · simp at h
  · rfl

/-- A successful create_review persists exactly the full recomputation
(sum of ratings over count) over all reviews of the worker after the
insert. -/
theorem createReview_stored (st : ReviewState) (uid : ObjectId)
    (dto : CreateReviewDto) (newId : ObjectId) (now : Int) (wid : ObjectId)
    (hr : ¬(dto.rating < 1 ∨ 5 < dto.rating))
    (hp : parseObjectIdStr dto.worker_id = some wid)
    (hw : (st.workers.find? (fun w => w.id == some wid)).isSome = true)
    (hdup : st.reviews.find? (fun r => r.worker_id == wid && r.user_id == uid) = none) :
    storedRating ((createReview st uid dto newId now).2).workers wid =
      some ((ratingsSum ((createReview st uid dto newId now).2).reviews wid : Rat) /
              (reviewCount ((createReview st uid dto newId now).2).reviews wid : Rat),
            (reviewCount ((createReview st uid dto newId now).2).reviews wid : Int)) := by
  rcases Option.isSome_iff_exists.mp hw with ⟨w, hw2⟩
  simp only [createReview, hr, if_false, hp, hw2, hdup, storedRating,
    find?_updateWorkerRating, Option.map_map]
  rfl

/-- A successful delete_review persists exactly the full recomputation
over the remaining reviews of the worker, with rating 0 when none
remain. -/
theorem deleteReview_stored (st : ReviewState) (uid : ObjectId)
    (review_id : String) (now : Int) (rid : ObjectId) (r : Review)
    (hp : parseObjectIdStr review_id = some rid)
    (hf : st.reviews.find? (fun x => x.id == some rid) = some r)
    (hu : r.user_id = uid) :
    storedRating ((deleteReview st uid review_id now).2).workers r.worker_id =
      (st.workers.find? (fun w => w.id == some r.worker_id)).map (fun _ =>
        ((if 0 < reviewCount ((deleteReview st uid review_id now).2).reviews r.worker_id then
            (ratingsSum ((deleteReview st uid review_id now).2).reviews r.worker_id : Rat) /
              (reviewCount ((deleteReview st uid review_id now).2).reviews r.worker_id : Rat)
          else 0),
         (reviewCount ((deleteReview st uid review_id now).2).reviews r.worker_id : Int))) := by
  simp only [deleteReview, hp, hf, hu, ne_eq, not_true_eq_false, if_false,
    storedRating, find?_updateWorkerRating, Option.map_map]
  rfl

/-- The rate-limiter store update of the refresh route does not depend
on the submitted token. -/
theorem refreshTokenRoute_store (cfg : JwtConfig) (store : List RateRecord)
    (dto : SignedToken) (nowMs nowSec : Int) :
    (refreshTokenRoute cfg store dto nowMs nowSec).2 =
      (rateLimit store "refresh_token" REFRESH_LIMIT REFRESH_WINDOW_MS nowMs).2 := by
  rw [refreshTokenRoute]
  cases (rateLimit store "refresh_token" REFRESH_LIMIT REFRESH_WINDOW_MS nowMs).1 with
  | error e => rfl
  | ok u =>
    dsimp only
    cases verifyToken cfg dto true nowSec with
    | error e => rfl
    | ok claims =>
      dsimp only
      cases parseObjectIdStr claims.sub with
      | none => rfl
      | some uid => rfl

/-! ## Claim theorems -/

/-- C1: verify_subscription_payment fails with the invalid-signature
BadRequest exactly when the provided signature differs from the
hex-encoded HMAC-SHA256 of orderId|paymentId under the gateway secret;
on any mismatch, in particular on any single-bit mutation of the valid
signature, it returns that error and leaves the subscriptions
collection unchanged. -/
theorem verify_payment_signature_gate (hm : HmacHexFn) (secret : ByteStr)
    (uid : ObjectId) (dto : VerifySubscriptionPaymentDto) (db : List Subscription)
    (now : Int) :
    ((verifySubscriptionPayment hm (some secret) uid dto db now).1 =
        Except.error (ApiError.bad_request "Invalid payment signature") ↔
      dto.razorpay_signature ≠ expectedSignature hm secret dto)
    ∧ (dto.razorpay_signature ≠ expectedSignature hm secret dto →
        verifySubscriptionPayment hm (some secret) uid dto db now =
          (Except.error (ApiError.bad_request "Invalid payment signature"), db))
    ∧ (∀ i k : Nat, i < (expectedSignature hm secret dto).length → k < 8 →
        verifySubscriptionPayment hm (some secret) uid
            { dto with razorpay_signature :=
                flipBitAt (expectedSignature hm secret dto) i k } db now =
          (Except.error (ApiError.bad_request "Invalid payment signature"), db)) := by
  have hmain : ∀ dto2 : VerifySubscriptionPaymentDto,
      expectedSignature hm secret dto2 ≠ dto2.razorpay_signature →
      verifySubscriptionPayment hm (some secret) uid dto2 db now =
        (Except.error (ApiError.bad_request "Invalid payment signature"), db) := by
    intro dto2 hne
    simp [verifySubscriptionPayment, hne]
  refine ⟨⟨fun h => ?_, fun hne => congrArg Prod.fst (hmain dto (Ne.symm hne))⟩,
    fun hne => hmain dto (Ne.symm hne), fun i k hi hk => ?_⟩
  · by_contra heq
    have hcond : ¬(expectedSignature hm secret dto ≠ dto.razorpay_signature) := by
      rw [heq]
      exact fun hh => hh rfl
    rw [verifySubscriptionPayment, if_neg hcond] at h
    cases hp : parseObjectIdStr dto.subscription_id with
    | none =>
      rw [hp] at h
      dsimp only at h
      exact absurd h (by decide)
    | some sid =>
      rw [hp] at h
      dsimp only at h
      cases hset : setSubActive db sid uid dto.razorpay_payment_id now with
      | none =>
        rw [hset] at h
        dsimp only at h
        exact absurd h (by decide)
      | some db2 =>
        rw [hset] at h
        dsimp only at h
        cases hfind : db2.find? (fun s => s.id == some sid) with
        | none =>
          rw [hfind] at h
          dsimp only at h
          exact absurd h (by decide)
        | some sub =>
          rw [hfind] at h
          dsimp only at h
          exact Except.noConfusion h
  · exact hmain _ (Ne.symm (flipBitAt_ne _ i k hi))

/-- C1 witness: a concrete mismatched signature is rejected and the
collection is untouched. -/
theorem verify_payment_signature_gate_witness :
    verifySubscriptionPayment (fun _ _ => [1]) (some [9]) 7 c2Dto
        [sampleSubscription] 5 =
      (Except.error (ApiError.bad_request "Invalid payment signature"),
        [sampleSubscription]) :=
  (verify_payment_signature_gate (fun _ _ => [1]) [9] 7 c2Dto
    [sampleSubscription] 5).2.1 (by decide)

/-- C2 counterexample: a correctly signed request naming a subscription
whose id and owner match but whose type is JobSeeker, not Worker, does
not fail with NotFound (the handler filter has no type clause), so the
claimed three-way characterisation of NotFound is false. -/
theorem verify_payment_type_filter_counterexample :
    ¬ (((verifySubscriptionPayment (fun _ _ => []) (some []) 7 c2Dto
          [sampleSubscription] 5).1 =
        Except.error (ApiError.not_found "Subscription not found")) ↔
      ¬ ∃ s ∈ [sampleSubscription], s.id = some 1 ∧ s.user_id = 7 ∧
          s.subscription_type = SubscriptionType.worker) := by decide

/-- C2 (amended): with a valid signature and well-formed id,
verify_subscription_payment fails with NotFound exactly when no
subscription matches the given id and the caller as owner (the
subscription type is not part of the filter); in particular a
subscription owned by another user yields NotFound, not Forbidden. -/
theorem verify_payment_not_found_iff (hm : HmacHexFn) (secret : ByteStr)
    (uid : ObjectId) (dto : VerifySubscriptionPaymentDto) (db : List Subscription)
    (now : Int) (subId : ObjectId)
    (hsig : dto.razorpay_signature = expectedSignature hm secret dto)
    (hid : parseObjectIdStr dto.subscription_id = some subId) :
    ((verifySubscriptionPayment hm (some secret) uid dto db now).1 =
        Except.error (ApiError.not_found "Subscription not found") ↔
      ¬ ∃ s ∈ db, s.id = some subId ∧ s.user_id = uid) := by
  have hcond : ¬(expectedSignature hm secret dto ≠ dto.razorpay_signature) := by
    rw [hsig]
    exact fun hh => hh rfl
  cases hset : setSubActive db subId uid dto.razorpay_payment_id now with
  | none =>
    have hall := (setSubActive_eq_none_iff db subId uid
      dto.razorpay_payment_id now).mp hset
    have hres : (verifySubscriptionPayment hm (some secret) uid dto db now).1 =
        Except.error (ApiError.not_found "Subscription not found") := by
      rw [verifySubscriptionPayment, if_neg hcond, hid]
      dsimp only
      rw [hset]
    refine iff_of_true hres ?_
    rintro ⟨s, hmem, hprop⟩
    exact hall s hmem hprop
  | some db2 =>
    have hex := setSubActive_some_exists hset
    have hsome : (db2.find? (fun s => s.id == some subId)).isSome = true := by
      rcases hex with ⟨s, hmem, hid2⟩
      exact List.find?_isSome.mpr ⟨s, hmem, by simp [hid2]⟩
    rcases Option.isSome_iff_exists.mp hsome with ⟨sub, hsub⟩
    have hres : (verifySubscriptionPayment hm (some secret) uid dto db now).1 =
        Except.ok sub := by
      rw [verifySubscriptionPayment, if_neg hcond, hid]
      dsimp only
      rw [hset]
      dsimp only
      rw [hsub]
    refine iff_of_false ?_ ?_
    · rw [hres]; simp
    · intro hnone
      have h0 := (setSubActive_eq_none_iff db subId uid
        dto.razorpay_payment_id now).mpr (fun s hs hp => hnone ⟨s, hs, hp⟩)
      rw [hset] at h0
      exact Option.noConfusion h0

/-- C2 witness: against an empty collection the verify call fails with
NotFound. -/
theorem verify_payment_not_found_iff_witness :
    ((verifySubscriptionPayment (fun _ _ => []) (some []) 7 c2Dto
        ([] : List Subscription) 5).1 =
      Except.error (ApiError.not_found "Subscription not found") ↔
      ¬ ∃ s ∈ ([] : List Subscription), s.id = some 1 ∧ s.user_id = 7) :=
  verify_payment_not_found_iff (fun _ _ => []) [] 7 c2Dto [] 5 1 (by decide) (by decide)

/-- C9: verification binds no order id and never inspects the current
status: for any subscription matching the given id and owner, whatever
its status (Expired, Cancelled, or anything else), a correctly signed
request succeeds, sets the status to Active and stamps the payment id. -/
theorem verify_payment_activates_any_status (hm : HmacHexFn) (secret : ByteStr)
    (uid : ObjectId) (dto : VerifySubscriptionPaymentDto) (now : Int)
    (subId : ObjectId) (pre post : List Subscription) (s : Subscription)
    (hsig : dto.razorpay_signature = expectedSignature hm secret dto)
    (hid : parseObjectIdStr dto.subscription_id = some subId)
    (hpre : ∀ t ∈ pre, ¬(t.id = some subId ∧ t.user_id = uid))
    (hsid : s.id = some subId) (hsu : s.user_id = uid) :
    (∃ r, (verifySubscriptionPayment hm (some secret) uid dto
        (pre ++ s :: post) now).1 = Except.ok r)
    ∧ (verifySubscriptionPayment hm (some secret) uid dto
        (pre ++ s :: post) now).2 =
      pre ++ { s with status := SubscriptionStatus.active, payment_id := some dto.razorpay_payment_id, updated_at := now } :: post := by
  have hset := setSubActive_first_match pre post s subId uid
    dto.razorpay_payment_id now hpre hsid hsu
  have hsome : (((pre ++ { s with status := SubscriptionStatus.active, payment_id := some dto.razorpay_payment_id, updated_at := now } :: post)).find?
      (fun x => x.id == some subId)).isSome = true := by
    refine List.find?_isSome.mpr ⟨_, List.mem_append_right _ (List.mem_cons_self _ _), ?_⟩
    simp [hsid]
  rcases Option.isSome_iff_exists.mp hsome with ⟨sub, hsub⟩
  have hcond : ¬(expectedSignature hm secret dto ≠ dto.razorpay_signature) := by
    rw [hsig]
    exact fun hh => hh rfl
  have hres1 : (verifySubscriptionPayment hm (some secret) uid dto
      (pre ++ s :: post) now).1 = Except.ok sub := by
    rw [verifySubscriptionPayment, if_neg hcond, hid]
    dsimp only
    rw [hset]
    dsimp only
    rw [hsub]
  have hres2 : (verifySubscriptionPayment hm (some secret) uid dto
      (pre ++ s :: post) now).2 =
      pre ++ { s with status := SubscriptionStatus.active, payment_id := some dto.razorpay_payment_id, updated_at := now } :: post := by
    rw [verifySubscriptionPayment, if_neg hcond, hid]
    dsimp only
    rw [hset]
    dsimp only
    rw [hsub]
  exact ⟨⟨sub, hres1⟩, hres2⟩

/-- C9 witness: a Cancelled (pending-payment marker) subscription of
JobSeeker type owned by the caller is activated by a correctly signed
request. -/
theorem verify_payment_activates_any_status_witness :
    (∃ r, (verifySubscriptionPayment (fun _ _ => []) (some []) 7 c2Dto
        [sampleSubscription] 5).1 = Except.ok r)
    ∧ (verifySubscriptionPayment (fun _ _ => []) (some []) 7 c2Dto
        [sampleSubscription] 5).2 =
      [{ sampleSubscription with status := SubscriptionStatus.active, payment_id := some [20], updated_at := 5 }] :=
  verify_payment_activates_any_status (fun _ _ => []) [] 7 c2Dto 5 1 [] []
    sampleSubscription (by decide) (by decide) (by simp) (by decide) (by decide)

/-- C3: on an authenticated request the KYC gate succeeds exactly when
the stored kyc_status is Approved or Submitted, and fails with
Forbidden in every other case: status Pending or Rejected, a missing
user record, or a storage-layer error (fail-closed), exhaustively over
the status enum. -/
theorem kyc_gate_exhaustive (auth : AuthGuard) :
    (∀ user : User,
      (kycGuardFromRequest (Outcome.success auth) (Except.ok (some user)) =
          Outcome.success ⟨auth⟩ ↔
        user.kyc_status = KycStatus.approved ∨ user.kyc_status = KycStatus.submitted)
      ∧ (user.kyc_status = KycStatus.pending ∨ user.kyc_status = KycStatus.rejected →
          kycGuardFromRequest (Outcome.success auth) (Except.ok (some user)) =
            Outcome.failure ApiStatus.forbidden))
    ∧ kycGuardFromRequest (Outcome.success auth) (Except.ok none) =
        Outcome.failure ApiStatus.forbidden
    ∧ (∀ e, kycGuardFromRequest (Outcome.success auth) (Except.error e) =
        Outcome.failure ApiStatus.forbidden) := by
  refine ⟨fun user => ⟨⟨fun h => ?_, fun h => ?_⟩, fun h => ?_⟩, rfl, fun e => rfl⟩
  · by_cases hs : user.kyc_status = KycStatus.approved ∨
        user.kyc_status = KycStatus.submitted
    · exact hs
    · simp [kycGuardFromRequest, hs] at h
  · rcases h with h | h <;> simp [kycGuardFromRequest, h]
  · have hs : ¬(user.kyc_status = KycStatus.approved ∨
        user.kyc_status = KycStatus.submitted) := by
      rcases h with h | h <;> simp [h]
    simp [kycGuardFromRequest, hs]

/-- C3 witness: a Submitted user passes the gate and a Rejected user is
rejected with Forbidden. -/
theorem kyc_gate_exhaustive_witness :
    kycGuardFromRequest (Outcome.success sampleAuth)
        (Except.ok (some (sampleUser KycStatus.submitted))) =
      Outcome.success { auth := sampleAuth }
    ∧ kycGuardFromRequest (Outcome.success sampleAuth)
        (Except.ok (some (sampleUser KycStatus.rejected))) =
      Outcome.failure ApiStatus.forbidden :=
  ⟨((kyc_gate_exhaustive sampleAuth).1 (sampleUser KycStatus.submitted)).1.mpr
     (Or.inr rfl),
   ((kyc_gate_exhaustive sampleAuth).1 (sampleUser KycStatus.rejected)).2
     (Or.inr rfl)⟩

/-- C4: with distinct access and refresh secrets, a generated refresh
token always fails verification in access mode with an invalid
signature, and a generated access token always fails verification in
refresh mode, whatever the verification time (so even unexpired). -/
theorem token_kind_isolation (cfg : JwtConfig) (userId : ObjectId)
    (mobile : String) (now nowv : Int)
    (h : cfg.jwt_secret ≠ cfg.jwt_refresh_secret) :
    verifyToken cfg (generateRefreshToken cfg userId mobile now) false nowv =
      Except.error JwtError.invalidSignature
    ∧ verifyToken cfg (generateAccessToken cfg userId mobile now) true nowv =
      Except.error JwtError.invalidSignature := by
  have h2 : cfg.jwt_refresh_secret ≠ cfg.jwt_secret := Ne.symm h
  constructor
  · simp [verifyToken, generateRefreshToken, h2]
  · simp [verifyToken, generateAccessToken, h]

/-- C4 witness: concrete cross-kind verifications both fail. -/
theorem token_kind_isolation_witness :
    verifyToken sampleJwtConfig
        (generateRefreshToken sampleJwtConfig 1 "9876543210" 0) false 0 =
      Except.error JwtError.invalidSignature
    ∧ verifyToken sampleJwtConfig
        (generateAccessToken sampleJwtConfig 1 "9876543210" 0) true 0 =
      Except.error JwtError.invalidSignature :=
  token_kind_isolation sampleJwtConfig 1 "9876543210" 0 0 (by decide)

/-- C5: the rate limiter is a fixed-window counter per key: a missing
record or an expired window resets the key to count 1 with expiry
now+window and allows; a live window below the limit increments and
allows; a live window at the limit rejects with 429 and leaves the
store unchanged. With limit 3 and a 10-minute window, three sequential
calls succeed, the fourth inside the window is rejected, and a call
after the window elapses succeeds and resets the counter to 1. -/
theorem rate_limit_fixed_window :
    (∀ (store : List RateRecord) (key : String) (limit window_ms now : Int),
      findRate store key = none →
      rateLimit store key limit window_ms now =
        (Except.ok (), store ++ [{ key := key, count := 1, expires_at := now + window_ms }]))
    ∧ (∀ (store : List RateRecord) (key : String) (limit window_ms now : Int)
        (d : RateRecord), findRate store key = some d → d.expires_at < now →
      (rateLimit store key limit window_ms now).1 = Except.ok () ∧
      findRate (rateLimit store key limit window_ms now).2 key =
        some { d with count := 1, expires_at := now + window_ms })
    ∧ (∀ (store : List RateRecord) (key : String) (limit window_ms now : Int)
        (d : RateRecord), findRate store key = some d → ¬d.expires_at < now →
      d.count < limit →
      (rateLimit store key limit window_ms now).1 = Except.ok () ∧
      findRate (rateLimit store key limit window_ms now).2 key =
        some { d with count := d.count + 1 })
    ∧ (∀ (store : List RateRecord) (key : String) (limit window_ms now : Int)
        (d : RateRecord), findRate store key = some d → ¬d.expires_at < now →
      limit ≤ d.count →
      rateLimit store key limit window_ms now =
        (Except.error (ApiError.too_many_requests "Too many requests. Please try later."), store))
    ∧ (rateLimit [] "otp" OTP_LIMIT OTP_WINDOW_MS 0 =
        (Except.ok (), [{ key := "otp", count := 1, expires_at := 600000 }])
      ∧ rateLimit [{ key := "otp", count := 1, expires_at := 600000 }] "otp"
          OTP_LIMIT OTP_WINDOW_MS 1 =
        (Except.ok (), [{ key := "otp", count := 2, expires_at := 600000 }])
      ∧ rateLimit [{ key := "otp", count := 2, expires_at := 600000 }] "otp"
          OTP_LIMIT OTP_WINDOW_MS 2 =
        (Except.ok (), [{ key := "otp", count := 3, expires_at := 600000 }])
      ∧ rateLimit [{ key := "otp", count := 3, expires_at := 600000 }] "otp"
          OTP_LIMIT OTP_WINDOW_MS 3 =
        (Except.error (ApiError.too_many_requests "Too many requests. Please try later."),
          [{ key := "otp", count := 3, expires_at := 600000 }])
      ∧ rateLimit [{ key := "otp", count := 3, expires_at := 600000 }] "otp"
          OTP_LIMIT OTP_WINDOW_MS 600001 =
        (Except.ok (), [{ key := "otp", count := 1, expires_at := 1200001 }])) := by
  refine ⟨?_, ?_, ?_, ?_, by decide⟩
  · intro store key limit window_ms now h
    simp [rateLimit, h]
  · intro store key limit window_ms now d h hexp
    constructor
    · simp [rateLimit, h, hexp]
    · have : (rateLimit store key limit window_ms now).2 =
          resetRate store key 1 (now + window_ms) := by
        simp [rateLimit, h, hexp]
      rw [this]
      exact findRate_resetRate store key 1 (now + window_ms) d h
  · intro store key limit window_ms now d h hexp hlt
    have hnle : ¬limit ≤ d.count := not_le.mpr hlt
    constructor
    · simp [rateLimit, h, hexp, hnle]
    · have : (rateLimit store key limit window_ms now).2 = incRate store key := by
        simp [rateLimit, h, hexp, hnle]
      rw [this]
      exact findRate_incRate store key d h
  · intro store key limit window_ms now d h hexp hge
    simp [rateLimit, h, hexp, hge]

/-- C5 witness: the first request for an absent key is allowed and
creates a count-1 record. -/
theorem rate_limit_fixed_window_witness :
    rateLimit [] "send_otp:9876543210" 3 600000 0 =
      (Except.ok (), [{ key := "send_otp:9876543210", count := 1, expires_at := 600000 }]) :=
  rate_limit_fixed_window.1 [] "send_otp:9876543210" 3 600000 0 rfl

/-- C6: when the user already holds an Active subscription of the
Worker type (the type this endpoint creates), create_subscription fails
with BadRequest, requests no gateway order, and inserts no row. -/
theorem create_subscription_rejects_active (db : List Subscription)
    (userId : ObjectId) (plan_name : String) (orderResult : Except String String)
    (newId : ObjectId) (now : Int)
    (h : ∃ s ∈ db, s.user_id = userId ∧ s.status = SubscriptionStatus.active ∧
      s.subscription_type = SubscriptionType.worker) :
    (∃ m, (createSubscription db userId plan_name orderResult newId now).result =
        Except.error (ApiError.bad_request m))
    ∧ (createSubscription db userId plan_name orderResult newId now).orderRequested = false
    ∧ (createSubscription db userId plan_name orderResult newId now).db = db := by
  have hfind : (db.find? (fun s => s.user_id == userId &&
      s.status == SubscriptionStatus.active)).isSome = true := by
    rcases h with ⟨s, hmem, hu, hst, _⟩
    exact List.find?_isSome.mpr ⟨s, hmem, by simp [hu, hst]⟩
  rcases Option.isSome_iff_exists.mp hfind with ⟨s0, hs0⟩
  rcases hplan : (match plan_name.toLower with
      | "silver" => some ((1 : Rat), WorkerSubscriptionPlan.silver)
      | "gold" => some ((2 : Rat), WorkerSubscriptionPlan.gold)
      | _ => none) with _ | ⟨price, p⟩
  · exact ⟨⟨"Invalid plan. Choose silver or gold",
      by simp [createSubscription, hplan]⟩,
      by simp [createSubscription, hplan],
      by simp [createSubscription, hplan]⟩
  · exact ⟨⟨"You already have an active subscription",
      by simp [createSubscription, hplan, hs0]⟩,
      by simp [createSubscription, hplan, hs0],
      by simp [createSubscription, hplan, hs0]⟩

/-- C6 witness: a user with an Active gold Worker subscription cannot
create another subscription. -/
theorem create_subscription_rejects_active_witness :
    (∃ m, (createSubscription [activeWorkerSub] 7 "silver"
        (Except.ok "order_1") 9 0).result = Except.error (ApiError.bad_request m))
    ∧ (createSubscription [activeWorkerSub] 7 "silver"
        (Except.ok "order_1") 9 0).orderRequested = false
    ∧ (createSubscription [activeWorkerSub] 7 "silver"
        (Except.ok "order_1") 9 0).db = [activeWorkerSub] :=
  create_subscription_rejects_active [activeWorkerSub] 7 "silver"
    (Except.ok "order_1") 9 0 (by decide)

/-- C7: the find_nearby_workers pipeline runs $skip and $limit before
$sort, so the page is cut from the $geoNear distance order and only
then sorted, while the spec orders the whole eligible set by (distance,
tier descending, rating descending) before paginating. With two
verified available workers at the same distance, the lower-rated one
stored first and page size 1, the code returns the lower-rated worker
where the spec-prescribed pipeline returns the higher-rated one. -/
theorem nearby_sort_after_pagination_bug :
    (findNearbyWorkers (fun _ _ => 0) [nbWorkerLow, nbWorkerHigh] nbQuery).1.map
        (fun p => p.1.user_id) = [1]
    ∧ (findNearbyWorkersSpec (fun _ _ => 0) [nbWorkerLow, nbWorkerHigh] nbQuery).map
        (fun p => p.1.user_id) = [2]
    ∧ (findNearbyWorkers (fun _ _ => 0) [nbWorkerLow, nbWorkerHigh] nbQuery).1.map
        (fun p => p.1.user_id) ≠
      (findNearbyWorkersSpec (fun _ _ => 0) [nbWorkerLow, nbWorkerHigh] nbQuery).map
        (fun p => p.1.user_id) := by decide

/-- C8: after every successful review create or delete the persisted
worker rating equals the sum of the ratings of all remaining reviews of
that worker divided by their count and totalReviews equals the count,
with rating 0 once no review remains; on the concrete run [5,3,4] the
stored pair is (4,3), deleting the rating-3 review gives (9/2,2), and
deleting the rest gives (0,0). -/
theorem rating_recompute_on_mutation :
    (∀ (st : ReviewState) (userId : ObjectId) (dto : CreateReviewDto)
      (newId : ObjectId) (now : Int) (wid : ObjectId),
      ¬(dto.rating < 1 ∨ 5 < dto.rating) →
      parseObjectIdStr dto.worker_id = some wid →
      (st.workers.find? (fun w => w.id == some wid)).isSome = true →
      st.reviews.find? (fun r => r.worker_id == wid && r.user_id == userId) = none →
      storedRating ((createReview st userId dto newId now).2).workers wid =
        some ((ratingsSum ((createReview st userId dto newId now).2).reviews wid : Rat) /
                (reviewCount ((createReview st userId dto newId now).2).reviews wid : Rat),
              (reviewCount ((createReview st userId dto newId now).2).reviews wid : Int)))
    ∧ (∀ (st : ReviewState) (userId : ObjectId) (review_id : String) (now : Int)
      (rid : ObjectId) (r : Review),
      parseObjectIdStr review_id = some rid →
      st.reviews.find? (fun x => x.id == some rid) = some r →
      r.user_id = userId →
      storedRating ((deleteReview st userId review_id now).2).workers r.worker_id =
        (st.workers.find? (fun w => w.id == some r.worker_id)).map (fun _ =>
          ((if 0 < reviewCount ((deleteReview st userId review_id now).2).reviews r.worker_id then
              (ratingsSum ((deleteReview st userId review_id now).2).reviews r.worker_id : Rat) /
                (reviewCount ((deleteReview st userId review_id now).2).reviews r.worker_id : Rat)
            else 0),
           (reviewCount ((deleteReview st userId review_id now).2).reviews r.worker_id : Int))))
    ∧ storedRating reviewState3.workers 5 = some ((4 : Rat), (3 : Int))
    ∧ storedRating reviewState4.workers 5 = some ((9 / 2 : Rat), (2 : Int))
    ∧ storedRating reviewState6.workers 5 = some ((0 : Rat), (0 : Int)) := by
  refine ⟨createReview_stored, deleteReview_stored, ?_, ?_, by decide⟩
  · have h := createReview_stored reviewState2 103 ⟨reviewWorkerHex, 4, none⟩ 3 0 5
      (by decide) (by decide) (by decide) (by decide)
    have hsum : ratingsSum ((createReview reviewState2 103
        ⟨reviewWorkerHex, 4, none⟩ 3 0).2).reviews 5 = 12 := by decide
    have hcnt : reviewCount ((createReview reviewState2 103
        ⟨reviewWorkerHex, 4, none⟩ 3 0).2).reviews 5 = 3 := by decide
    rw [show reviewState3 = (createReview reviewState2 103
      ⟨reviewWorkerHex, 4, none⟩ 3 0).2 from rfl, h, hsum, hcnt]
    norm_num
  · have h := deleteReview_stored reviewState3 102 "000000000000000000000002" 0 2
      { id := some 2, worker_id := 5, user_id := 102, rating := 3, comment := none, helpful_count := 0, created_at := 0, updated_at := 0 }
      (by decide) (by decide) rfl
    dsimp only at h
    have hsum : ratingsSum ((deleteReview reviewState3 102
        "000000000000000000000002" 0).2).reviews 5 = 9 := by decide
    have hcnt : reviewCount ((deleteReview reviewState3 102
        "000000000000000000000002" 0).2).reviews 5 = 2 := by decide
    rw [show reviewState4 = (deleteReview reviewState3 102
      "000000000000000000000002" 0).2 from rfl, h, hsum, hcnt]
    rw [map_const_of_isSome _ (by decide)]
    norm_num

/-- C8 witness: the first create of the scenario persists the full
recomputation. -/
theorem rating_recompute_on_mutation_witness :
    storedRating ((createReview reviewState0 101 ⟨reviewWorkerHex, 5, none⟩ 1 0).2).workers 5 =
      some ((ratingsSum ((createReview reviewState0 101 ⟨reviewWorkerHex, 5, none⟩ 1 0).2).reviews 5 : Rat) /
              (reviewCount ((createReview reviewState0 101 ⟨reviewWorkerHex, 5, none⟩ 1 0).2).reviews 5 : Rat),
            (reviewCount ((createReview reviewState0 101 ⟨reviewWorkerHex, 5, none⟩ 1 0).2).reviews 5 : Int)) :=
  rating_recompute_on_mutation.1 reviewState0 101 ⟨reviewWorkerHex, 5, none⟩ 1 0 5
    (by decide) (by decide) (by decide) (by decide)

/-- C10: the refresh endpoint rate-limits on the single constant key
"refresh_token": the rate-limit store evolves identically whatever
token any caller submits, and once the shared counter has reached 10
inside a live 60-second window every further refresh call, by any
caller, fails with 429 before the token is even inspected. -/
theorem refresh_rate_limit_shared_key :
    (∀ (cfg : JwtConfig) (store : List RateRecord) (dto1 dto2 : SignedToken)
      (nowMs nowSec : Int),
      (refreshTokenRoute cfg store dto1 nowMs nowSec).2 =
        (refreshTokenRoute cfg store dto2 nowMs nowSec).2)
    ∧ (∀ (cfg : JwtConfig) (store : List RateRecord) (dto : SignedToken)
      (nowMs nowSec : Int) (d : RateRecord),
      findRate store "refresh_token" = some d → ¬d.expires_at < nowMs →
      10 ≤ d.count →
      refreshTokenRoute cfg store dto nowMs nowSec =
        (Except.error (ApiError.too_many_requests "Too many requests. Please try later."),
          store)) := by
  constructor
  · intro cfg store dto1 dto2 nowMs nowSec
    rw [refreshTokenRoute_store, refreshTokenRoute_store]
  · intro cfg store dto nowMs nowSec d h hexp hge
    have hrl : rateLimit store "refresh_token" REFRESH_LIMIT REFRESH_WINDOW_MS nowMs =
        (Except.error (ApiError.too_many_requests "Too many requests. Please try later."),
          store) := by
      have hge2 : REFRESH_LIMIT ≤ d.count := hge
      simp [rateLimit, h, hexp, hge2]
    rw [refreshTokenRoute]
    rw [hrl]

/-- C10 witness: with the shared counter at 10 in a live window, a
refresh call carrying a fresh valid refresh token is rejected. -/
theorem refresh_rate_limit_shared_key_witness :
    refreshTokenRoute sampleJwtConfig
        [{ key := "refresh_token", count := 10, expires_at := 60000 }]
        (generateRefreshToken sampleJwtConfig 2 "9876500000" 0) 5 1 =
      (Except.error (ApiError.too_many_requests "Too many requests. Please try later."),
        [{ key := "refresh_token", count := 10, expires_at := 60000 }]) :=
  refresh_rate_limit_shared_key.2 sampleJwtConfig
    [{ key := "refresh_token", count := 10, expires_at := 60000 }]
    (generateRefreshToken sampleJwtConfig 2 "9876500000" 0) 5 1
    { key := "refresh_token", count := 10, expires_at := 60000 }
    (by decide) (by decide) (by decide)

end Mento





